import Mathlib

/-
Verification of the PDF document-reader core of PDF4QT
(src/PdfForQtLib/sources/pdfdocumentreader.cpp and
src/PdfForQtLib/sources/pdfsecurityhandler.cpp).

Byte buffers (QByteArray, std::vector of uint8_t, std::array of uint8_t)
are modelled as List Nat with each element a byte value below 256.
External cryptographic primitives (OpenSSL MD5, RC4, SHA-2, AES) and the
collaborator components that are not part of the analysed sources
(PDFParser, PDFLexicalAnalyzer, PDFXRefTable, the stream-filter decoder)
are taken as explicit function parameters; everything else follows the
C++ sources line by line.
-/

namespace PdfVerify

set_option maxRecDepth 8000

/-- Sentinel value returned by PDFDocumentReader::findFromEnd when the
pattern is not found; declared in pdfdocumentreader.h (not among the
analysed sources) as FIND_NOT_FOUND_RESULT, a negative sentinel. -/
def FIND_NOT_FOUND_RESULT : Int := -1

/-- The pattern `needle` occurs in `hay` starting at byte index `j`
(when `needle` is nonempty this forces `j + needle.length ≤ hay.length`). -/
def occursAt (hay needle : List Nat) (j : Nat) : Bool :=
  (hay.drop j).take needle.length == needle

/-- Downward search for the largest start index `j ≤ start` at which
`needle` occurs in `hay`. -/
def findEndFrom (hay needle : List Nat) : Nat → Option Nat
  | 0 => if occursAt hay needle 0 then some 0 else none
  | j + 1 => if occursAt hay needle (j + 1) then some (j + 1) else findEndFrom hay needle j

/-- Model of std::find_end over a byte range: the start index of the last
occurrence of `needle` in `hay`, or `none` when there is no occurrence.
For an empty `needle` std::find_end returns the `last` iterator, which the
caller treats as not-found, hence `none`. -/
def findEnd (hay needle : List Nat) : Option Nat :=
  if needle.isEmpty then none else findEndFrom hay needle hay.length

/-- Embedding of PDFDocumentReader::findFromEnd
(pdfdocumentreader.cpp lines 453-481). -/
def findFromEnd (what : List Nat) (byteArray : List Nat) (limit : Int) : Int :=
  if byteArray.isEmpty then
    FIND_NOT_FOUND_RESULT
  else
    let size : Int := byteArray.length
    let adjustedLimit : Int := min size limit
    let whatLength : Int := what.length
    if adjustedLimit < whatLength then
      FIND_NOT_FOUND_RESULT
    else
      let windowStart : Nat := byteArray.length - adjustedLimit.toNat
      match findEnd (byteArray.drop windowStart) what with
      | some j => ((windowStart + j : Nat) : Int)
      | none => FIND_NOT_FOUND_RESULT

/-
Data model: PDFObject (pdfobject.h is not among the analysed sources; the
constructors follow the tagged union described by the code's isNull /
isDictionary / isInt / isBool / isString / isName / isStream / isArray /
isReference accessors; the Real payload, a floating-point number, is not
needed by any analysed code path and is carried without a value).
Names are modelled as String, strings as byte lists.
-/

inductive PDFObject where
  | null
  | boolean (b : Bool)
  | integer (n : Int)
  | real
  | string (s : List Nat)
  | name (s : String)
  | array (items : List PDFObject)
  | dictionary (entries : List (String × PDFObject))
  | stream (dict : List (String × PDFObject)) (data : List Nat)
  | reference (objectNumber : Int) (generation : Int)
deriving Inhabited

/-- PDFDictionary::get: the value stored under a key, or the null object
when the key is absent. -/
def dictGet (entries : List (String × PDFObject)) (key : String) : PDFObject :=
  match entries.find? (fun p => p.1 == key) with
  | some p => p.2
  | none => PDFObject.null

/-- PDFDictionary::hasKey. -/
def dictHasKey (entries : List (String × PDFObject)) (key : String) : Bool :=
  (entries.find? (fun p => p.1 == key)).isSome

inductive CryptFilterType where
  | identity
  | noneFilter
  | v2
  | aesv2
  | aesv3
deriving DecidableEq

inductive AuthEvent where
  | docOpen
  | efOpen
deriving DecidableEq

structure CryptFilter where
  type : CryptFilterType
  authEvent : AuthEvent
deriving DecidableEq

/-- Default-constructed CryptFilter (member defaults of the header, which is
not among the analysed sources: type None, authorization event DocOpen). -/
def defaultCryptFilter : CryptFilter :=
  { type := CryptFilterType.noneFilter, authEvent := AuthEvent.docOpen }

/-- Insertion into the std::map of crypt filters: overwrite an existing key,
otherwise append. -/
def mapInsert (m : List (String × CryptFilter)) (k : String) (v : CryptFilter) :
    List (String × CryptFilter) :=
  match m with
  | [] => [(k, v)]
  | (k1, v1) :: rest => if k1 == k then (k, v) :: rest else (k1, v1) :: mapInsert rest k v

/-- Lookup in the std::map of crypt filters. -/
def mapFind (m : List (String × CryptFilter)) (k : String) : Option CryptFilter :=
  match m.find? (fun p => p.1 == k) with
  | some p => some p.2
  | none => none

inductive AuthorizationResult where
  | noneResult
  | userAuthorized
  | ownerAuthorized
  | failed
  | cancelled
deriving DecidableEq

structure StandardSecurityHandler where
  V : Int
  keyLength : Int
  cryptFilters : List (String × CryptFilter)
  filterStreams : CryptFilter
  filterStrings : CryptFilter
  filterEmbeddedFiles : CryptFilter
  R : Int
  O : List Nat
  U : List Nat
  permissions : Nat
  OE : List Nat
  UE : List Nat
  Perms : List Nat
  encryptMetadata : Bool
  ID : List Nat
deriving DecidableEq

inductive SecurityHandler where
  | noneHandler
  | standard (h : StandardSecurityHandler)
deriving DecidableEq

/-- The getName lambda of PDFSecurityHandler::createSecurityHandler
(pdfsecurityhandler.cpp lines 53-73): a null entry yields the default, a
name yields its bytes, anything else yields the default unless the entry
is required, in which case the parse fails. -/
def getNameEntry (dictionary : List (String × PDFObject)) (key : String) (required : Bool)
    (defaultValue : Option String) : Except String String :=
  match dictGet dictionary key with
  | PDFObject.null => Except.ok (defaultValue.getD "")
  | PDFObject.name s => Except.ok s
  | _ =>
    if required then
      Except.error ("Invalid value for entry " ++ key ++ " in encryption dictionary. Name expected.")
    else
      Except.ok (defaultValue.getD "")

/-- The getInt lambda of PDFSecurityHandler::createSecurityHandler
(pdfsecurityhandler.cpp lines 75-89). -/
def getIntEntry (dictionary : List (String × PDFObject)) (key : String) (required : Bool)
    (defaultValue : Int) : Except String Int :=
  match dictGet dictionary key with
  | PDFObject.integer n => Except.ok n
  | _ =>
    if required then
      Except.error ("Invalid value for entry " ++ key ++ " in encryption dictionary. Integer expected.")
    else
      Except.ok defaultValue

/-- The readByteArray lambda of PDFSecurityHandler::createSecurityHandler
(pdfsecurityhandler.cpp lines 238-258). -/
def readByteArrayEntry (dictionary : List (String × PDFObject)) (key : String) (size : Int) :
    Except String (List Nat) :=
  match dictGet dictionary key with
  | PDFObject.string s =>
    if (s.length : Int) = size then Except.ok s
    else Except.error ("Expected string of given length in entry " ++ key ++ ".")
  | _ => Except.error ("Expected string of given length in entry " ++ key ++ ".")

/-- The AuthEvent half of the parseCryptFilter lambda
(pdfsecurityhandler.cpp lines 179-193). -/
def parseCryptFilterAuthEvent (cryptFilterDictionary : List (String × PDFObject))
    (type : CryptFilterType) : Except String CryptFilter :=
  match getNameEntry cryptFilterDictionary "AuthEvent" false (some "DocOpen") with
  | Except.error e => Except.error e
  | Except.ok authEventName =>
    if authEventName = "DocOpen" then
      Except.ok { type := type, authEvent := AuthEvent.docOpen }
    else if authEventName = "EFOpen" then
      Except.ok { type := type, authEvent := AuthEvent.efOpen }
    else
      Except.error ("Unsupported authorization event " ++ authEventName ++ ".")

/-- The parseCryptFilter lambda (pdfsecurityhandler.cpp lines 147-194). -/
def parseCryptFilter (object : PDFObject) : Except String CryptFilter :=
  match object with
  | PDFObject.dictionary cryptFilterDictionary =>
    (match getNameEntry cryptFilterDictionary "CFM" false (some "None") with
     | Except.error e => Except.error e
     | Except.ok CFMName =>
       if CFMName = "None" then
         parseCryptFilterAuthEvent cryptFilterDictionary CryptFilterType.noneFilter
       else if CFMName = "V2" then
         parseCryptFilterAuthEvent cryptFilterDictionary CryptFilterType.v2
       else if CFMName = "AESV2" then
         parseCryptFilterAuthEvent cryptFilterDictionary CryptFilterType.aesv2
       else if CFMName = "AESV3" then
         parseCryptFilterAuthEvent cryptFilterDictionary CryptFilterType.aesv3
       else
         Except.error ("Unsupported encryption algorithm " ++ CFMName ++ "."))
  | _ => Except.error "Crypt filter is not a dictionary!"

/-- The loop over the CF dictionary (pdfsecurityhandler.cpp lines 196-200),
inserting each parsed crypt filter under its key. -/
def parseCryptFilters (entries : List (String × PDFObject))
    (acc : List (String × CryptFilter)) : Except String (List (String × CryptFilter)) :=
  match entries with
  | [] => Except.ok acc
  | (key, value) :: rest =>
    match parseCryptFilter value with
    | Except.error e => Except.error e
    | Except.ok filter => parseCryptFilters rest (mapInsert acc key filter)

/-- The resolveFilter lambda (pdfsecurityhandler.cpp lines 204-214). -/
def resolveFilter (cryptFilters : List (String × CryptFilter)) (name : String) :
    Except String CryptFilter :=
  match mapFind cryptFilters name with
  | some f => Except.ok f
  | none => Except.error ("Uknown crypt filter " ++ name ++ ".")

/-- The filter table holding only the always-present Identity filter
(pdfsecurityhandler.cpp lines 137-140). -/
def identityBaseFilters : List (String × CryptFilter) :=
  mapInsert [] "Identity" { type := CryptFilterType.identity, authEvent := AuthEvent.docOpen }

/-- The V = 4 or V = 5 block resolving the named crypt filters and the
StmF / StrF / EFF assignments (pdfsecurityhandler.cpp lines 142-229).
Returns (crypt filter table, stream filter, string filter, embedded-file
filter). When the EFF entry is omitted the stream filter is reused. -/
def resolveFiltersStage (dictionary : List (String × PDFObject))
    (base : List (String × CryptFilter)) :
    Except String (List (String × CryptFilter) × CryptFilter × CryptFilter × CryptFilter) :=
  match
    (match dictGet dictionary "CF" with
     | PDFObject.dictionary cryptFilterObjects => parseCryptFilters cryptFilterObjects base
     | _ => Except.ok base) with
  | Except.error e => Except.error e
  | Except.ok cryptFilters =>
    match getNameEntry dictionary "StmF" false (some "Identity") with
    | Except.error e => Except.error e
    | Except.ok stmfName =>
      match resolveFilter cryptFilters stmfName with
      | Except.error e => Except.error e
      | Except.ok filterStreams =>
        match getNameEntry dictionary "StrF" false (some "Identity") with
        | Except.error e => Except.error e
        | Except.ok strfName =>
          match resolveFilter cryptFilters strfName with
          | Except.error e => Except.error e
          | Except.ok filterStrings =>
            if dictHasKey dictionary "EFF" then
              match getNameEntry dictionary "EFF" true none with
              | Except.error e => Except.error e
              | Except.ok effName =>
                match resolveFilter cryptFilters effName with
                | Except.error e => Except.error e
                | Except.ok filterEmbeddedFiles =>
                  Except.ok (cryptFilters, filterStreams, filterStrings, filterEmbeddedFiles)
            else
              Except.ok (cryptFilters, filterStreams, filterStrings, filterStreams)

/-- The key length selected per version V (pdfsecurityhandler.cpp
lines 105-130). -/
def lengthForV (dictionary : List (String × PDFObject)) (V : Int) : Except String Int :=
  if V = 1 then Except.ok 40
  else if V = 2 ∨ V = 3 then getIntEntry dictionary "Length" false 40
  else if V = 4 then Except.ok 128
  else Except.ok 256

/-- The OE / UE / Perms entries required for revision 6
(pdfsecurityhandler.cpp lines 265-270). -/
def readR6Entries (dictionary : List (String × PDFObject)) :
    Except String (List Nat × List Nat × List Nat) :=
  match readByteArrayEntry dictionary "OE" 32 with
  | Except.error e => Except.error e
  | Except.ok OE =>
    match readByteArrayEntry dictionary "UE" 32 with
    | Except.error e => Except.error e
    | Except.ok UE =>
      match readByteArrayEntry dictionary "Perms" 16 with
      | Except.error e => Except.error e
      | Except.ok PermsValue => Except.ok (OE, UE, PermsValue)

/-- The EncryptMetadata entry (pdfsecurityhandler.cpp lines 272-276); the
member default true is the header's initializer (header not among the
analysed sources; true is also the format's default). -/
def readEncryptMetadata (dictionary : List (String × PDFObject)) : Bool :=
  match dictGet dictionary "EncryptMetadata" with
  | PDFObject.boolean b => b
  | _ => true

/-- static_cast of a PDFInteger to uint32_t (pdfsecurityhandler.cpp
line 263), for values representable in the 32-bit range. -/
def toUInt32Model (i : Int) : Nat := (i % 4294967296).toNat

/-- Embedding of PDFSecurityHandler::createSecurityHandler
(pdfsecurityhandler.cpp lines 39-281). -/
def createSecurityHandler (encryptionDictionaryObject : PDFObject) (id : List Nat) :
    Except String SecurityHandler :=
  match encryptionDictionaryObject with
  | PDFObject.null => Except.ok SecurityHandler.noneHandler
  | PDFObject.dictionary dictionary =>
    (match getNameEntry dictionary "Filter" true none with
     | Except.error e => Except.error e
     | Except.ok filterName =>
       if filterName ≠ "Standard" then Except.error "Unknown security handler."
       else
         match getIntEntry dictionary "V" true (-1) with
         | Except.error e => Except.error e
         | Except.ok V =>
           if V < 1 ∨ 5 < V then Except.error "Unsupported version of document encryption."
           else
             match lengthForV dictionary V with
             | Except.error e => Except.error e
             | Except.ok keyLength =>
               match
                 (if V = 4 ∨ V = 5 then resolveFiltersStage dictionary identityBaseFilters
                  else Except.ok (identityBaseFilters, defaultCryptFilter, defaultCryptFilter,
                    defaultCryptFilter)) with
               | Except.error e => Except.error e
               | Except.ok (cryptFilters, filterStreams, filterStrings, filterEmbeddedFiles) =>
                 match getIntEntry dictionary "R" true (-1) with
                 | Except.error e => Except.error e
                 | Except.ok R =>
                   if R < 2 ∨ 6 < R ∨ R = 5 then
                     Except.error "Revision of standard security handler is not supported."
                   else
                     match readByteArrayEntry dictionary "O" (if R ≠ 6 then 32 else 48) with
                     | Except.error e => Except.error e
                     | Except.ok O =>
                       match readByteArrayEntry dictionary "U" (if R ≠ 6 then 32 else 48) with
                       | Except.error e => Except.error e
                       | Except.ok U =>
                         match getIntEntry dictionary "P" true (-1) with
                         | Except.error e => Except.error e
                         | Except.ok P =>
                           match
                             (if R = 6 then readR6Entries dictionary
                              else Except.ok (([] : List Nat), ([] : List Nat),
                                ([] : List Nat))) with
                           | Except.error e => Except.error e
                           | Except.ok (OE, UE, PermsValue) =>
                             Except.ok (SecurityHandler.standard {
                               V := V
                               keyLength := keyLength
                               cryptFilters := cryptFilters
                               filterStreams := filterStreams
                               filterStrings := filterStrings
                               filterEmbeddedFiles := filterEmbeddedFiles
                               R := R
                               O := O
                               U := U
                               permissions := toUInt32Model P
                               OE := OE
                               UE := UE
                               Perms := PermsValue
                               encryptMetadata := readEncryptMetadata dictionary
                               ID := id }))
  | _ => Except.error "Invalid encryption dictionary."

/-- The fixed password padding constant PDFPasswordPadding
(pdfsecurityhandler.cpp lines 32-37). -/
def PDFPasswordPadding : List Nat :=
  [0x28, 0xBF, 0x4E, 0x5E, 0x4E, 0x75, 0x8A, 0x41,
   0x64, 0x00, 0x4E, 0x56, 0xFF, 0xFA, 0x01, 0x08,
   0x2E, 0x2E, 0x00, 0xB6, 0xD0, 0x68, 0x3E, 0x80,
   0x2F, 0x0C, 0xA9, 0xFE, 0x64, 0x53, 0x69, 0x7A]

/-- Embedding of PDFStandardSecurityHandler::createPaddedPassword32
(pdfsecurityhandler.cpp lines 603-623): copy at most 32 password bytes,
fill the remainder from the padding constant. -/
def createPaddedPassword32 (password : List Nat) : List Nat :=
  password.take 32 ++ PDFPasswordPadding.take (32 - password.length)

/-- A 32-bit value as its four little-endian bytes, the memory image hashed
by MD5_Update after qToLittleEndian (pdfsecurityhandler.cpp line 411,417). -/
def toLittleEndian32 (value : Nat) : List Nat :=
  [value % 256, value / 256 % 256, value / 65536 % 256, value / 16777216 % 256]

/-- The 50-round re-hashing loop of createFileEncryptionKey
(pdfsecurityhandler.cpp lines 435-444): each round hashes the first
keyByteLength bytes of the running digest buffer and replaces the buffer
with the new digest. -/
def md5Rounds (md5 : List Nat → List Nat) (keyByteLength : Nat) :
    List Nat → Nat → List Nat
  | key, 0 => key
  | key, n + 1 => md5Rounds md5 keyByteLength (md5 (key.take keyByteLength)) n

/-- Embedding of PDFStandardSecurityHandler::createFileEncryptionKey
(pdfsecurityhandler.cpp lines 400-465), with the MD5 digest as an explicit
function parameter. For revision 6 the C++ function asserts and returns the
untouched empty result. -/
def createFileEncryptionKey (md5 : List Nat → List Nat)
    (h : StandardSecurityHandler) (password : List Nat) : Except String (List Nat) :=
  if h.R = 2 ∨ h.R = 3 ∨ h.R = 4 then
    let paddedPassword := createPaddedPassword32 password
    let fileEncryptionKey := md5 (paddedPassword ++ h.O ++ toLittleEndian32 h.permissions ++
      h.ID ++ (if h.encryptMetadata then [] else [255, 255, 255, 255]))
    let keyByteLength := (h.keyLength / 8).toNat
    if 16 < keyByteLength then
      Except.error "Encryption key length exceeded maximal value."
    else
      let finalKey :=
        if 3 ≤ h.R then md5Rounds md5 keyByteLength fileEncryptionKey 50
        else fileEncryptionKey
      Except.ok (finalKey.take keyByteLength)
  else if h.R = 6 then
    Except.ok []
  else
    Except.error "Revision of standard security handler is not supported."

/-- The 50-round rule exactly as the specification sentence behind C4 words
it: re-hash the current keyLengthBits/8 key bytes and take the same-length
result. -/
def specKeyRounds (md5 : List Nat → List Nat) (keyByteLength : Nat) :
    List Nat → Nat → List Nat
  | key, 0 => key
  | key, n + 1 => specKeyRounds md5 keyByteLength ((md5 key).take keyByteLength) n

/-- The whole key-derivation algorithm exactly as the specification
sentences behind C4 word it: pad/truncate the password to 32 bytes with
the fixed constant, hash {paddedPassword, O, P as 4 little-endian bytes,
documentId, 0xFFFFFFFF iff metadata encryption is disabled}, take the
first keyLengthBits/8 bytes, and for R at least 3 apply 50 re-hash
rounds. -/
def deriveFileKeySpec (md5 : List Nat → List Nat) (O : List Nat) (permissions : Nat)
    (documentId : List Nat) (encryptMetadata : Bool) (keyLengthBits : Int) (R : Int)
    (password : List Nat) : List Nat :=
  let keyByteLength := (keyLengthBits / 8).toNat
  let digest := md5 ((password ++ PDFPasswordPadding).take 32 ++ O ++
    toLittleEndian32 permissions ++ documentId ++
    (if encryptMetadata then [] else [255, 255, 255, 255]))
  let key0 := digest.take keyByteLength
  if 3 ≤ R then specKeyRounds md5 keyByteLength key0 50 else key0

/-- The 19 ascending re-encryption passes of createEntryValueU_r234
(pdfsecurityhandler.cpp lines 500-510): on pass i the RC4 key is the file
encryption key with every byte XOR-ed with i. -/
def uEncryptPasses (rc4 : List Nat → List Nat → List Nat) (fileEncryptionKey : List Nat)
    (encryptedHash : List Nat) (i : Nat) : Nat → List Nat
  | 0 => encryptedHash
  | count + 1 =>
    uEncryptPasses rc4 fileEncryptionKey
      (rc4 (fileEncryptionKey.map (fun b => b ^^^ i)) encryptedHash) (i + 1) count

/-- Embedding of PDFStandardSecurityHandler::createEntryValueU_r234
(pdfsecurityhandler.cpp lines 467-528), with MD5 and RC4 as explicit
function parameters. For revisions 3 and 4 the result is the stored U
entry with its leading bytes overwritten by the encrypted digest. -/
def createEntryValueU_r234 (md5 : List Nat → List Nat)
    (rc4 : List Nat → List Nat → List Nat)
    (h : StandardSecurityHandler) (fileEncryptionKey : List Nat) :
    Except String (List Nat) :=
  if h.R = 2 then
    Except.ok (rc4 fileEncryptionKey PDFPasswordPadding)
  else if h.R = 3 ∨ h.R = 4 then
    let hash := md5 (PDFPasswordPadding ++ h.ID)
    let encryptedHash := uEncryptPasses rc4 fileEncryptionKey (rc4 fileEncryptionKey hash) 1 19
    Except.ok (encryptedHash ++ h.U.drop encryptedHash.length)
  else
    Except.error "Revision of standard security handler is not supported."

/-- The 20 descending decryption passes of createUserPasswordFromOwnerPassword
(pdfsecurityhandler.cpp lines 578-588): pass i (19 down to 0) RC4-encrypts
the running buffer under the hash's first keyByteLength bytes XOR-ed with i. -/
def ownerDecryptPasses (rc4 : List Nat → List Nat → List Nat) (hash : List Nat)
    (keyByteLength : Nat) : Nat → List Nat → List Nat
  | 0, buffer => rc4 (((hash.take keyByteLength)).map (fun b => b ^^^ 0)) buffer
  | i + 1, buffer =>
    ownerDecryptPasses rc4 hash keyByteLength i
      (rc4 (((hash.take keyByteLength)).map (fun b => b ^^^ (i + 1))) buffer)

/-- Embedding of PDFStandardSecurityHandler::createUserPasswordFromOwnerPassword
(pdfsecurityhandler.cpp lines 530-601). -/
def createUserPasswordFromOwnerPassword (md5 : List Nat → List Nat)
    (rc4 : List Nat → List Nat → List Nat)
    (h : StandardSecurityHandler) (password : List Nat) : Except String (List Nat) :=
  let paddedPassword := createPaddedPassword32 password
  let hash0 := md5 paddedPassword
  let keyByteLength := (h.keyLength / 8).toNat
  if 16 < keyByteLength then
    Except.error "Encryption key length exceeded maximal value."
  else
    let hash := if 3 ≤ h.R then md5Rounds md5 keyByteLength hash0 50 else hash0
    if h.R = 2 then
      Except.ok (rc4 (hash.take keyByteLength) h.O)
    else if h.R = 3 ∨ h.R = 4 then
      Except.ok (ownerDecryptPasses rc4 hash keyByteLength 19 h.O)
    else
      Except.error "Revision of standard security handler is not supported."

structure UserOwnerData_r6 where
  hash : List Nat
  validationSalt : List Nat
  keySalt : List Nat
deriving DecidableEq

/-- Embedding of PDFStandardSecurityHandler::parseParts
(pdfsecurityhandler.cpp lines 758-768). -/
def parseParts (data : List Nat) : UserOwnerData_r6 :=
  { hash := data.take 32
    validationSalt := (data.drop 32).take 8
    keySalt := (data.drop 40).take 8 }

/-- The per-byte weight accumulation of createHash_r6
(pdfsecurityhandler.cpp lines 696-712): bit i of the byte contributes
weight 1 for even i and 2 for odd i (currentRemainder alternates
1, 2, 1, 2, ...). -/
def byteRemainder (byte : Nat) : Nat :=
  (List.range 8).foldl
    (fun acc i => if (byte >>> i) &&& 1 = 1 then acc + (if i % 2 = 0 then 1 else 2) else acc) 0

/-- The remainder modulo 3 computed by createHash_r6 from the first 16
bytes of the encrypted buffer E (pdfsecurityhandler.cpp lines 696-713). -/
def remainderAccumulator (E : List Nat) : Nat :=
  ((E.take 16).foldl (fun acc byte => acc + byteRemainder byte) 0) % 3

/-- The unsigned big-endian integer formed by a byte list. -/
def bigEndianNat (bytes : List Nat) : Nat :=
  bytes.foldl (fun acc b => acc * 256 + b) 0

/-- The last byte of a buffer (std::vector back); 0 for the empty buffer,
which the C++ never reads (see hashR6Loop). -/
def lastByte : List Nat → Nat
  | [] => 0
  | [b] => b
  | _ :: b :: rest => lastByte (b :: rest)

/-- The round loop of createHash_r6 (pdfsecurityhandler.cpp lines 650-748),
with the SHA-2 digests and the AES-128-CBC encryption as explicit function
parameters. The loop guard reads the last byte of the previous round's E;
before the first round E is empty, and the short-circuiting round < 64 test
keeps the C++ from reading it, so the default 0 of lastByte is never
observable. The fuel argument makes the recursion structural; none means
the fuel was exhausted. -/
def hashR6Loop (sha256 sha384 sha512 : List Nat → List Nat)
    (aes : List Nat → List Nat → List Nat → List Nat)
    (password userKey : List Nat) :
    Nat → Nat → List Nat → List Nat → Option (Nat × List Nat)
  | 0, round, K, E =>
    if round < 64 ∨ round < lastByte E + 32 then none else some (round, K)
  | fuel + 1, round, K, E =>
    if round < 64 ∨ round < lastByte E + 32 then
      let K1 := (List.replicate 64 (password ++ K ++ userKey)).flatten
      let Enew := aes (K.take 16) ((K.drop 16).take 16) K1
      let rem := remainderAccumulator Enew
      let Knew :=
        if rem = 0 then sha256 Enew else if rem = 1 then sha384 Enew else sha512 Enew
      hashR6Loop sha256 sha384 sha512 aes password userKey fuel (round + 1) Knew Enew
    else
      some (round, K)

/-- Embedding of PDFStandardSecurityHandler::createHash_r6
(pdfsecurityhandler.cpp lines 625-756): K starts as the SHA-256 digest of
the input, the user key is the stored U entry when requested, and the
result is the first 32 bytes of the final K. Fuel 287 suffices for every
byte-valued AES output (round stops at 64 or at last E byte + 32, at
most 255 + 32 = 287). -/
def createHash_r6 (sha256 sha384 sha512 : List Nat → List Nat)
    (aes : List Nat → List Nat → List Nat → List Nat)
    (mU : List Nat) (input inputPassword : List Nat) (useUserKey : Bool) :
    Option (List Nat) :=
  let userKey := if useUserKey then mU else []
  match hashR6Loop sha256 sha384 sha512 aes inputPassword userKey 287 0 (sha256 input) [] with
  | some (_, Kfinal) => some (Kfinal.take 32)
  | none => none

structure AuthorizationData where
  authorizationResult : AuthorizationResult
  fileEncryptionKey : List Nat
deriving DecidableEq

/-- Default-constructed AuthorizationData: no result, empty key (the data
is absent until an authorization succeeds; header defaults are not among
the analysed sources and follow the specification's data model). -/
def defaultAuthorizationData : AuthorizationData :=
  { authorizationResult := AuthorizationResult.noneResult, fileEncryptionKey := [] }

/-- AuthorizationData::isAuthorized: owner or user authorization has been
established (modelled from the specification's AuthorizationResult
outcomes; the header is not among the analysed sources). -/
def AuthorizationData.isAuthorized (d : AuthorizationData) : Bool :=
  d.authorizationResult == AuthorizationResult.ownerAuthorized ||
    d.authorizationResult == AuthorizationResult.userAuthorized

/-- Outcome of one iteration of the while loop of
PDFStandardSecurityHandler::authenticate: either a return statement was
reached with a result and the stored authorization data, or the switch
fell through and the password callback is consulted next. -/
inductive StepOutcome where
  | finished (result : AuthorizationResult) (data : AuthorizationData)
  | next
deriving DecidableEq

/-- One iteration of the switch statement of
PDFStandardSecurityHandler::authenticate (pdfsecurityhandler.cpp
lines 293-391) for the current candidate password. The R = 6 user branch
decrypts m_OE (pdfsecurityhandler.cpp lines 372-373), exactly as the
source does. A parser exception propagates as Except.error; an exhausted
hash fuel — impossible for byte-valued AES outputs — is reported the same
way. -/
def authenticateStep (md5 : List Nat → List Nat) (rc4 : List Nat → List Nat → List Nat)
    (sha256 sha384 sha512 : List Nat → List Nat)
    (aesEnc aesDec : List Nat → List Nat → List Nat → List Nat)
    (h : StandardSecurityHandler) (password : List Nat) : Except String StepOutcome :=
  if h.R = 2 ∨ h.R = 3 ∨ h.R = 4 then
    match createUserPasswordFromOwnerPassword md5 rc4 h password with
    | Except.error e => Except.error e
    | Except.ok userPassword =>
      match createFileEncryptionKey md5 h userPassword with
      | Except.error e => Except.error e
      | Except.ok ownerFileEncryptionKey =>
        match createEntryValueU_r234 md5 rc4 h ownerFileEncryptionKey with
        | Except.error e => Except.error e
        | Except.ok ownerU =>
          if ownerU = h.U then
            Except.ok (StepOutcome.finished AuthorizationResult.ownerAuthorized
              { authorizationResult := AuthorizationResult.ownerAuthorized
                fileEncryptionKey := ownerFileEncryptionKey })
          else
            match createFileEncryptionKey md5 h password with
            | Except.error e => Except.error e
            | Except.ok fileEncryptionKey =>
              match createEntryValueU_r234 md5 rc4 h fileEncryptionKey with
              | Except.error e => Except.error e
              | Except.ok userU =>
                if userU = h.U then
                  Except.ok (StepOutcome.finished AuthorizationResult.userAuthorized
                    { authorizationResult := AuthorizationResult.userAuthorized
                      fileEncryptionKey := fileEncryptionKey })
                else
                  Except.ok StepOutcome.next
  else if h.R = 6 then
    let userData := parseParts h.U
    let ownerData := parseParts h.O
    match createHash_r6 sha256 sha384 sha512 aesEnc h.U
        (password ++ ownerData.validationSalt ++ h.U) password true with
    | none => Except.error "hash fuel exhausted"
    | some ownerHash =>
      if ownerHash = ownerData.hash then
        match createHash_r6 sha256 sha384 sha512 aesEnc h.U
            (password ++ ownerData.keySalt ++ h.U) password true with
        | none => Except.error "hash fuel exhausted"
        | some ownerFileDecryptionKey =>
          Except.ok (StepOutcome.finished AuthorizationResult.ownerAuthorized
            { authorizationResult := AuthorizationResult.ownerAuthorized
              fileEncryptionKey := aesDec ownerFileDecryptionKey (List.replicate 16 0) h.OE })
      else
        match createHash_r6 sha256 sha384 sha512 aesEnc h.U
            (password ++ userData.validationSalt) password false with
        | none => Except.error "hash fuel exhausted"
        | some userHash =>
          if userHash = userData.hash then
            match createHash_r6 sha256 sha384 sha512 aesEnc h.U
                (password ++ userData.keySalt) password false with
            | none => Except.error "hash fuel exhausted"
            | some userFileDecryptionKey =>
              Except.ok (StepOutcome.finished AuthorizationResult.userAuthorized
                { authorizationResult := AuthorizationResult.userAuthorized
                  fileEncryptionKey :=
                    aesDec userFileDecryptionKey (List.replicate 16 0) h.OE })
          else
            Except.ok StepOutcome.next
  else
    Except.ok (StepOutcome.finished AuthorizationResult.failed defaultAuthorizationData)

/-- The while loop of PDFStandardSecurityHandler::authenticate
(pdfsecurityhandler.cpp lines 291-397): try the current candidate, then
consult the password provider; a false continuation flag ends the loop
with Cancelled. The provider is indexed by the number of calls made so
far; fuel bounds the otherwise unbounded retry loop (none = fuel ran
out). -/
def authenticateLoop (md5 : List Nat → List Nat) (rc4 : List Nat → List Nat → List Nat)
    (sha256 sha384 sha512 : List Nat → List Nat)
    (aesEnc aesDec : List Nat → List Nat → List Nat → List Nat)
    (h : StandardSecurityHandler) (provider : Nat → List Nat × Bool) :
    Nat → List Nat → Nat →
    Option (Except String (AuthorizationResult × AuthorizationData × Nat))
  | 0, _, _ => none
  | fuel + 1, password, calls =>
    match authenticateStep md5 rc4 sha256 sha384 sha512 aesEnc aesDec h password with
    | Except.error e => some (Except.error e)
    | Except.ok (StepOutcome.finished result data) => some (Except.ok (result, data, calls))
    | Except.ok StepOutcome.next =>
      if (provider calls).2 then
        authenticateLoop md5 rc4 sha256 sha384 sha512 aesEnc aesDec h provider
          fuel (provider calls).1 (calls + 1)
      else
        some (Except.ok (AuthorizationResult.cancelled, defaultAuthorizationData, calls + 1))

/-- Embedding of PDFStandardSecurityHandler::authenticate
(pdfsecurityhandler.cpp lines 283-398): the first candidate is the empty
password, later candidates come from the provider. The returned triple is
(result, stored authorization data, number of provider invocations). -/
def authenticate (md5 : List Nat → List Nat) (rc4 : List Nat → List Nat → List Nat)
    (sha256 sha384 sha512 : List Nat → List Nat)
    (aesEnc aesDec : List Nat → List Nat → List Nat → List Nat)
    (h : StandardSecurityHandler) (provider : Nat → List Nat × Bool) (fuel : Nat) :
    Option (Except String (AuthorizationResult × AuthorizationData × Nat)) :=
  authenticateLoop md5 rc4 sha256 sha384 sha512 aesEnc aesDec h provider fuel [] 0

/-- The sequence of candidate passwords tried by authenticate: the empty
initial password, then the provider's answers in call order. -/
def candidatePassword (provider : Nat → List Nat × Bool) : Nat → List Nat
  | 0 => []
  | k + 1 => (provider k).1

structure PDFObjectReference where
  objectNumber : Int
  generation : Int
deriving DecidableEq

/-- An Occupied cross-reference entry as used by readFromBuffer
(PDFXRefTable::Entry, header not among the analysed sources; the spec's
CrossReferenceEntry Occupied case). -/
structure XRefOccupiedEntry where
  reference : PDFObjectReference
  offset : Int
deriving DecidableEq

/-- An InObjectStream cross-reference entry (the spec's CrossReferenceEntry
InObjectStream case: container reference and index within the container). -/
structure XRefObjectStreamEntry where
  reference : PDFObjectReference
  objectStream : PDFObjectReference
  indexInObjectStream : Int
deriving DecidableEq

/-- The cross-reference table as consumed by readFromBuffer: its size, the
trailer object, and its Occupied and InObjectStream entries (the
PDFXRefTable component itself is an external collaborator, its resolve is
a parameter of the reader environment below). -/
structure XRefTableModel where
  size : Nat
  trailerDictionary : PDFObject
  occupiedEntries : List XRefOccupiedEntry
  objectStreamEntries : List XRefObjectStreamEntry

/-- One slot of PDFObjectStorage::PDFObjects: generation and object. -/
structure StorageEntry where
  generation : Int
  object : PDFObject

/-- Default-constructed storage entry: generation 0, null object. -/
def defaultStorageEntry : StorageEntry :=
  { generation := 0, object := PDFObject.null }

/-- The reader's shared mutable state: the success flag and the captured
error message. -/
structure ReaderState where
  successfull : Bool
  errorMessage : String

/-- One phase-5 task (the processEntry lambda, pdfdocumentreader.cpp
lines 245-266): skip cheaply when the shared flag is already false, parse
the object at the entry's offset, write it into its slot on success,
record the message and clear the flag on failure. The parallel for_each
is modelled as a sequential fold: tasks of a phase are independent of one
another's outputs. -/
def processEntry (getObject : Int → PDFObjectReference → Except String PDFObject)
    (st : ReaderState × List StorageEntry) (entry : XRefOccupiedEntry) :
    ReaderState × List StorageEntry :=
  if st.1.successfull then
    match getObject entry.offset entry.reference with
    | Except.ok object =>
      (st.1, st.2.set entry.reference.objectNumber.toNat
        { generation := entry.reference.generation, object := object })
    | Except.error msg => ({ successfull := false, errorMessage := msg }, st.2)
  else
    st

/-- Phase 5: all Occupied entries (pdfdocumentreader.cpp line 269). -/
def processEntries (getObject : Int → PDFObjectReference → Except String PDFObject)
    (entries : List XRefOccupiedEntry) (st : ReaderState × List StorageEntry) :
    ReaderState × List StorageEntry :=
  entries.foldl (processEntry getObject) st

/-- The find_if predicate of processObjectStream (pdfdocumentreader.cpp
line 411): some cross-reference entry has this object number and this
container reference. The entry's index within the container is not
inspected. -/
def declaresPair (objectStreamEntries : List XRefObjectStreamEntry)
    (objectNumber : Int) (objectStreamReference : PDFObjectReference) : Bool :=
  objectStreamEntries.any (fun entry =>
    entry.reference.objectNumber == objectNumber &&
      entry.objectStream == objectStreamReference)

/-- The write loop over the parsed (objectNumber, offset) pairs of a
container (pdfdocumentreader.cpp lines 404-421): parse the object at each
offset, write only the object field of the slot when the pair is declared
for this container, otherwise stop with an object-stream error. Writes
made before a failing pair persist, as they do under the source's mutex.
The result is the updated table and the error message, if any. -/
def processObjectStreamPairs (parseObjectAt : Int → PDFObject)
    (objectStreamEntries : List XRefObjectStreamEntry)
    (objectStreamReference : PDFObjectReference)
    (objects : List StorageEntry) :
    List (Int × Int) → List StorageEntry × Option String
  | [] => (objects, none)
  | (objectNumber, offset) :: rest =>
    let object := parseObjectAt offset
    if declaresPair objectStreamEntries objectNumber objectStreamReference then
      processObjectStreamPairs parseObjectAt objectStreamEntries objectStreamReference
        (objects.set objectNumber.toNat
          { generation := (objects.getD objectNumber.toNat defaultStorageEntry).generation
            object := object })
        rest
    else
      (objects, some "Object stream is invalid.")

/-- The loop reading the N (objectNumber, offset) pairs from the decoded
container bytes (pdfdocumentreader.cpp lines 387-402); the parser is
abstracted as the token sequence it produces. Each stored offset is the
parsed relative offset plus First. -/
def readPairs (parseStreamToken : Nat → PDFObject) (first : Int) :
    Nat → Nat → Except String (List (Int × Int))
  | 0, _ => Except.ok []
  | count + 1, i =>
    match parseStreamToken (2 * i), parseStreamToken (2 * i + 1) with
    | PDFObject.integer objectNumber, PDFObject.integer offset =>
      (match readPairs parseStreamToken first count (i + 1) with
       | Except.ok rest => Except.ok ((objectNumber, offset + first) :: rest)
       | Except.error e => Except.error e)
    | _, _ => Except.error "Object stream is invalid."

/-- One phase-9 task body (the processObjectStream lambda,
pdfdocumentreader.cpp lines 341-429, without the shared-flag gate handled
by the caller): look the container up in the table, check its stream type
and N/First entries, decode its data, read the pair table and run the
write loop. Returns the updated table and the recorded error, if any. -/
def processObjectStream (decodeStream : PDFObject → List Nat)
    (parseStreamToken : List Nat → Nat → PDFObject)
    (parseStreamObjectAt : List Nat → Int → PDFObject)
    (objectStreamEntries : List XRefObjectStreamEntry)
    (objects : List StorageEntry)
    (objectStreamReference : PDFObjectReference) :
    List StorageEntry × Option String :=
  if (objects.length : Int) ≤ objectStreamReference.objectNumber then
    (objects, some "Object stream not found.")
  else
    match (objects.getD objectStreamReference.objectNumber.toNat defaultStorageEntry).object with
    | PDFObject.stream dict data =>
      (match dictGet dict "Type" with
       | PDFObject.name typeName =>
         if typeName = "ObjStm" then
           match dictGet dict "N", dictGet dict "First" with
           | PDFObject.integer n, PDFObject.integer first =>
             let objectStreamData := decodeStream (PDFObject.stream dict data)
             (match readPairs (parseStreamToken objectStreamData) first n.toNat 0 with
              | Except.ok pairs =>
                processObjectStreamPairs (parseStreamObjectAt objectStreamData)
                  objectStreamEntries objectStreamReference objects pairs
              | Except.error e => (objects, some e))
           | _, _ => (objects, some "Object stream is invalid.")
         else (objects, some "Object stream is invalid.")
       | _ => (objects, some "Object stream is invalid."))
    | _ => (objects, some "Object stream is invalid.")

/-- Ordering of PDFObjectReference as used by std::set (object number,
then generation; operator< lives in a header not among the analysed
sources). -/
def refLess (a b : PDFObjectReference) : Bool :=
  a.objectNumber < b.objectNumber ||
    (a.objectNumber == b.objectNumber && a.generation < b.generation)

/-- Sorted-unique insertion, modelling std::set insert. -/
def insertRef (r : PDFObjectReference) : List PDFObjectReference → List PDFObjectReference
  | [] => [r]
  | x :: xs => if refLess r x then r :: x :: xs else if r == x then x :: xs else x :: insertRef r xs

/-- The std::set of distinct container references built from all
InObjectStream entries (pdfdocumentreader.cpp lines 334-339), iterated in
sorted order. -/
def collectObjectStreams (entries : List XRefObjectStreamEntry) : List PDFObjectReference :=
  entries.foldl (fun acc e => insertRef e.objectStream acc) []

/-- Phase 9 (pdfdocumentreader.cpp line 432): run the task body per
container, with the cheap shared-flag check at the task entry
(pdfdocumentreader.cpp lines 343-346) and the error capture of the task's
catch block (lines 423-428). -/
def processObjectStreams (decodeStream : PDFObject → List Nat)
    (parseStreamToken : List Nat → Nat → PDFObject)
    (parseStreamObjectAt : List Nat → Int → PDFObject)
    (objectStreamEntries : List XRefObjectStreamEntry)
    (containers : List PDFObjectReference)
    (st : ReaderState × List StorageEntry) : ReaderState × List StorageEntry :=
  containers.foldl
    (fun st ref =>
      if st.1.successfull then
        match processObjectStream decodeStream parseStreamToken parseStreamObjectAt
            objectStreamEntries st.2 ref with
        | (objects, none) => (st.1, objects)
        | (objects, some msg) => ({ successfull := false, errorMessage := msg }, objects)
      else
        st)
    st

/-- The document value returned by readFromBuffer: either the
default-constructed empty document or one built from an object storage
(object table, trailer, security handler). -/
inductive PDFDocument where
  | empty
  | document (objects : List StorageEntry) (trailer : PDFObject) (handler : SecurityHandler)

/-- The external collaborators of readFromBuffer: format constants and the
scan limits (pdfconstants.h), the lexical analyzer fetching the startxref
integer, the header regular-expression and version check, the
cross-reference resolver, the object parser for phase 5, the
stream-filter decoder and the object-stream parser for phase 9, the
OpenSSL primitives and the password callback for authentication. -/
structure ReaderEnv where
  endOfFileMark : List Nat
  startXRefMark : List Nat
  footerScanLimit : Int
  headerScanLimit : Int
  fetchFirstXRefOffset : List Nat → Except String Int
  headerCheck : List Nat → Except String Unit
  resolveXRef : Int → Except String XRefTableModel
  getObject : Int → PDFObjectReference → Except String PDFObject
  decodeStream : PDFObject → List Nat
  parseStreamToken : List Nat → Nat → PDFObject
  parseStreamObjectAt : List Nat → Int → PDFObject
  md5 : List Nat → List Nat
  rc4 : List Nat → List Nat → List Nat
  sha256 : List Nat → List Nat
  sha384 : List Nat → List Nat
  sha512 : List Nat → List Nat
  aesEnc : List Nat → List Nat → List Nat → List Nat
  aesDec : List Nat → List Nat → List Nat → List Nat
  getPassword : Nat → List Nat × Bool
  authFuel : Nat

/-- The virtual authenticate call of readFromBuffer (pdfdocumentreader.cpp
line 319). Modelled from the spec for the None handler (defined only in
pdfsecurityhandler.h, not among the analysed sources): it always
authorizes immediately. The Standard handler runs the embedded
authenticate loop; its fuel exhaustion — the C++ loop that never
returns — is reported as an error. -/
def authenticateHandler (env : ReaderEnv) (handler : SecurityHandler) :
    Except String AuthorizationResult :=
  match handler with
  | SecurityHandler.noneHandler => Except.ok AuthorizationResult.ownerAuthorized
  | SecurityHandler.standard h =>
    match authenticate env.md5 env.rc4 env.sha256 env.sha384 env.sha512 env.aesEnc env.aesDec
        h env.getPassword env.authFuel with
    | none => Except.error "authentication loop fuel exhausted"
    | some (Except.error e) => Except.error e
    | some (Except.ok (result, _, _)) => Except.ok result

/-- The document ID read from the trailer (pdfdocumentreader.cpp
lines 292-305): the first element of the ID array, when it is a string. -/
def readDocumentId (trailerDictionary : List (String × PDFObject)) : List Nat :=
  match dictGet trailerDictionary "ID" with
  | PDFObject.array items =>
    (match items with
     | [] => []
     | item :: _ =>
       match item with
       | PDFObject.string s => s
       | _ => [])
  | _ => []

/-- The Encrypt entry, resolved through the populated object table when it
is an indirect reference with a matching generation (pdfdocumentreader.cpp
lines 307-315). -/
def resolveEncryptObject (trailerDictionary : List (String × PDFObject))
    (objects : List StorageEntry) : PDFObject :=
  match dictGet trailerDictionary "Encrypt" with
  | PDFObject.reference objectNumber generation =>
    if objectNumber.toNat < objects.length ∧
        (objects.getD objectNumber.toNat defaultStorageEntry).generation = generation then
      (objects.getD objectNumber.toNat defaultStorageEntry).object
    else
      PDFObject.reference objectNumber generation
  | other => other

/-- The body of the try block of PDFDocumentReader::readFromBuffer
(pdfdocumentreader.cpp lines 106-435). An Except.error is a
PDFParserException unwinding to the catch block. -/
def readFromBufferBody (env : ReaderEnv) (buffer : List Nat) :
    Except String (ReaderState × PDFDocument) :=
  if findFromEnd env.endOfFileMark buffer env.footerScanLimit = FIND_NOT_FOUND_RESULT then
    Except.error "End of file marking was not found."
  else
    let startXRefPosition := findFromEnd env.startXRefMark buffer env.footerScanLimit
    if startXRefPosition = FIND_NOT_FOUND_RESULT then
      Except.error "Start of object reference table not found."
    else
      match env.fetchFirstXRefOffset
          (buffer.drop (startXRefPosition.toNat + env.startXRefMark.length)) with
      | Except.error e => Except.error e
      | Except.ok firstXrefTableOffset =>
        match env.headerCheck (buffer.take env.headerScanLimit.toNat) with
        | Except.error e => Except.error e
        | Except.ok _ =>
          match env.resolveXRef firstXrefTableOffset with
          | Except.error e => Except.error e
          | Except.ok xrefTable =>
            let afterPhase5 := processEntries env.getObject xrefTable.occupiedEntries
              ({ successfull := true, errorMessage := "" },
                List.replicate xrefTable.size defaultStorageEntry)
            match
              (match xrefTable.trailerDictionary with
               | PDFObject.dictionary d => some d
               | PDFObject.stream d _ => some d
               | _ => none) with
            | none => Except.error "Invalid trailer dictionary."
            | some trailerDictionary =>
              match createSecurityHandler
                  (resolveEncryptObject trailerDictionary afterPhase5.2)
                  (readDocumentId trailerDictionary) with
              | Except.error e => Except.error e
              | Except.ok securityHandler =>
                match authenticateHandler env securityHandler with
                | Except.error e => Except.error e
                | Except.ok authorizationResult =>
                  if authorizationResult = AuthorizationResult.failed ∨
                      authorizationResult = AuthorizationResult.cancelled then
                    Except.error "Authorization failed. Bad password provided."
                  else
                    let afterPhase9 := processObjectStreams env.decodeStream
                      env.parseStreamToken env.parseStreamObjectAt
                      xrefTable.objectStreamEntries
                      (collectObjectStreams xrefTable.objectStreamEntries)
                      afterPhase5
                    Except.ok (afterPhase9.1,
                      PDFDocument.document afterPhase9.2 xrefTable.trailerDictionary
                        securityHandler)

/-- Embedding of PDFDocumentReader::readFromBuffer (pdfdocumentreader.cpp
lines 104-444): the try block's outcome, with the catch block
(lines 437-443) turning an exception into the failure state and the
default-constructed document. Note that the success path builds the
document from whatever state the two phases left behind: no check of the
shared success flag happens between the phases and line 434. -/
def readFromBuffer (env : ReaderEnv) (buffer : List Nat) : ReaderState × PDFDocument :=
  match readFromBufferBody env buffer with
  | Except.ok result => result
  | Except.error msg => ({ successfull := false, errorMessage := msg }, PDFDocument.empty)

/-- The candidates a run of the retry loop tries when it starts with
password p after c provider calls: p itself, then the provider's answers
from call c on. -/
def candFrom (provider : Nat → List Nat × Bool) (p : List Nat) (c : Nat) : Nat → List Nat
  | 0 => p
  | j + 1 => (provider (c + j)).1

/-- Stub digests and ciphers used to evaluate the revision-6 branches on a
concrete instance: every digest is all zero bytes, block encryption yields
a single zero byte, block decryption is the identity on its ciphertext. -/
def stubSha256 : List Nat → List Nat := fun _ => List.replicate 32 0

def stubSha384 : List Nat → List Nat := fun _ => List.replicate 48 0

def stubSha512 : List Nat → List Nat := fun _ => List.replicate 64 0

def stubAesEnc : List Nat → List Nat → List Nat → List Nat := fun _ _ _ => [0]

def stubAesDec : List Nat → List Nat → List Nat → List Nat := fun _ _ m => m

def stubMd5 : List Nat → List Nat := fun _ => []

def stubRc4 : List Nat → List Nat → List Nat := fun _ _ => []

/-- A concrete revision-6 handler on which the owner hash check fails, the
user hash check succeeds, and the OE and UE entries differ. -/
def c2Handler : StandardSecurityHandler :=
  { V := 5, keyLength := 256, cryptFilters := [],
    filterStreams := defaultCryptFilter, filterStrings := defaultCryptFilter,
    filterEmbeddedFiles := defaultCryptFilter, R := 6,
    O := List.replicate 48 1, U := List.replicate 48 0,
    permissions := 0, OE := List.replicate 32 5, UE := List.replicate 32 7, Perms := [],
    encryptMetadata := true, ID := [] }

def c3Ref : PDFObjectReference := { objectNumber := 7, generation := 0 }

/-- A cross-reference table declaring object 3 in container c3Ref at index
5 within the container. -/
def c3Entries : List XRefObjectStreamEntry :=
  [{ reference := { objectNumber := 3, generation := 0 }, objectStream := c3Ref,
     indexInObjectStream := 5 }]

def c9Dict : List (String × PDFObject) :=
  [("Filter", PDFObject.name "Standard"), ("V", PDFObject.integer 4),
   ("R", PDFObject.integer 4), ("O", PDFObject.string (List.replicate 32 0)),
   ("U", PDFObject.string (List.replicate 32 0)), ("P", PDFObject.integer 0)]

def c9Handler : StandardSecurityHandler :=
  { V := 4, keyLength := 128,
    cryptFilters :=
      [("Identity", { type := CryptFilterType.identity, authEvent := AuthEvent.docOpen })],
    filterStreams := { type := CryptFilterType.identity, authEvent := AuthEvent.docOpen },
    filterStrings := { type := CryptFilterType.identity, authEvent := AuthEvent.docOpen },
    filterEmbeddedFiles := { type := CryptFilterType.identity, authEvent := AuthEvent.docOpen },
    R := 4, O := List.replicate 32 0, U := List.replicate 32 0,
    permissions := 0, OE := [], UE := [], Perms := [],
    encryptMetadata := true, ID := [] }

/-- Whether a document value is the default-constructed empty document. -/
def isEmptyDocument : PDFDocument → Bool
  | PDFDocument.empty => true
  | PDFDocument.document _ _ _ => false

/-- A cross-reference table declaring objects 1 and 2 as occupied. -/
def c1XRef : XRefTableModel :=
  { size := 3, trailerDictionary := PDFObject.dictionary [],
    occupiedEntries :=
      [{ reference := { objectNumber := 1, generation := 0 }, offset := 10 },
       { reference := { objectNumber := 2, generation := 0 }, offset := 20 }],
    objectStreamEntries := [] }

/-- A reader environment whose parser succeeds on object 1 and fails on
object 2, over an unencrypted two-object input. -/
def c1Env : ReaderEnv :=
  { endOfFileMark := [170], startXRefMark := [187], footerScanLimit := 64,
    headerScanLimit := 1024,
    fetchFirstXRefOffset := fun _ => Except.ok 0,
    headerCheck := fun _ => Except.ok (),
    resolveXRef := fun _ => Except.ok c1XRef,
    getObject := fun _ ref =>
      if ref.objectNumber == 2 then Except.error "Can not read object at position 20."
      else Except.ok (PDFObject.integer 42),
    decodeStream := fun _ => [],
    parseStreamToken := fun _ _ => PDFObject.null,
    parseStreamObjectAt := fun _ _ => PDFObject.null,
    md5 := stubMd5, rc4 := stubRc4, sha256 := stubSha256, sha384 := stubSha384,
    sha512 := stubSha512, aesEnc := stubAesEnc, aesDec := stubAesDec,
    getPassword := fun _ => ([], false), authFuel := 1 }

def c1Buffer : List Nat := [187, 170]

theorem occursAt_drop (l p : List Nat) (n j : Nat) :
    occursAt (l.drop n) p j = occursAt l p (n + j) := by
  simp [occursAt, List.drop_drop, Nat.add_comm]

theorem findEndFrom_some (hay needle : List Nat) (start j : Nat)
    (h : findEndFrom hay needle start = some j) :
    occursAt hay needle j = true ∧ j ≤ start ∧
      ∀ k, k ≤ start → occursAt hay needle k = true → k ≤ j := by
  induction start with
  | zero =>
    simp only [findEndFrom] at h
    by_cases hocc : occursAt hay needle 0 = true
    · simp [hocc] at h
      subst h
      exact ⟨hocc, Nat.le_refl _, fun k hk _ => hk⟩
    · simp [hocc] at h
  | succ n ih =>
    simp only [findEndFrom] at h
    by_cases hocc : occursAt hay needle (n + 1) = true
    · simp [hocc] at h
      subst h
      exact ⟨hocc, Nat.le_refl _, fun k hk _ => hk⟩
    · simp [hocc] at h
      obtain ⟨h1, h2, h3⟩ := ih h
      refine ⟨h1, Nat.le_succ_of_le h2, fun k hk hkocc => ?_⟩
      rcases Nat.lt_or_ge k (n + 1) with hlt | hge
      · exact h3 k (Nat.lt_succ_iff.mp hlt) hkocc
      · exact absurd hkocc (by
          have : k = n + 1 := Nat.le_antisymm hk hge
          simpa [this] using hocc)

theorem occursAt_big (byteArray what : List Nat) (k : Nat)
    (hk : byteArray.length < k) (hne : what.isEmpty = false) :
    occursAt byteArray what k = false := by
  have hdrop : byteArray.drop k = [] := List.drop_eq_nil_of_le (Nat.le_of_lt hk)
  cases what with
  | nil => simp at hne
  | cons a l => simp [occursAt, hdrop]

/-- C10: for every pattern, buffer and positive scan limit, findFromEnd
returns the not-found sentinel or the byte index of the start of the last
occurrence of the pattern inside the trailing window of
min(limit, buffer size) bytes; in particular it returns the sentinel
whenever the buffer is empty or the window is shorter than the pattern. -/
theorem findFromEnd_correct (what byteArray : List Nat) (limit : Int) (hpos : 0 < limit) :
    (byteArray = [] → findFromEnd what byteArray limit = FIND_NOT_FOUND_RESULT) ∧
    (min (byteArray.length : Int) limit < (what.length : Int) →
      findFromEnd what byteArray limit = FIND_NOT_FOUND_RESULT) ∧
    (findFromEnd what byteArray limit = FIND_NOT_FOUND_RESULT ∨
      ∃ j : Nat,
        findFromEnd what byteArray limit = (j : Int) ∧
        byteArray.length - (min (byteArray.length : Int) limit).toNat ≤ j ∧
        occursAt byteArray what j = true ∧
        ∀ k : Nat,
          byteArray.length - (min (byteArray.length : Int) limit).toNat ≤ k →
          occursAt byteArray what k = true → k ≤ j) := by
  refine ⟨?_, ?_, ?_⟩
  · intro h
    subst h
    rfl
  · intro hsmall
    by_cases hemp : byteArray.isEmpty
    · simp [findFromEnd, hemp]
    · simp [findFromEnd, hemp, hsmall]
  · by_cases hemp : byteArray.isEmpty
    · left
      simp [findFromEnd, hemp]
    · by_cases hsmall : min (byteArray.length : Int) limit < (what.length : Int)
      · left
        simp [findFromEnd, hemp, hsmall]
      · rcases hfe : findEnd
            (byteArray.drop (byteArray.length - (min (byteArray.length : Int) limit).toNat))
            what with _ | j
        · left
          simp [findFromEnd, hemp, hsmall, hfe]
        · right
          by_cases hw : what.isEmpty
          · simp [findEnd, hw] at hfe
          · have hw' : what.isEmpty = false := by
              simpa using hw
            have hfrom :
                findEndFrom
                  (byteArray.drop (byteArray.length - (min (byteArray.length : Int) limit).toNat))
                  what
                  (byteArray.drop
                    (byteArray.length - (min (byteArray.length : Int) limit).toNat)).length
                  = some j := by
              simpa [findEnd, hw'] using hfe
            obtain ⟨hocc, hle, hmax⟩ := findEndFrom_some _ _ _ _ hfrom
            refine ⟨byteArray.length - (min (byteArray.length : Int) limit).toNat + j,
              ?_, ?_, ?_, ?_⟩
            · simp [findFromEnd, hemp, hsmall, hfe]
            · exact Nat.le_add_right _ _
            · rw [occursAt_drop] at hocc
              exact hocc
            · intro k hk hkocc
              have hklen : k ≤ byteArray.length := by
                by_contra hgt
                have := occursAt_big byteArray what k (by omega) hw'
                rw [this] at hkocc
                exact Bool.false_ne_true hkocc
              have heq :
                  byteArray.length - (min (byteArray.length : Int) limit).toNat +
                    (k - (byteArray.length - (min (byteArray.length : Int) limit).toNat)) = k := by
                omega
              have hocc' :
                  occursAt
                    (byteArray.drop
                      (byteArray.length - (min (byteArray.length : Int) limit).toNat))
                    what
                    (k - (byteArray.length - (min (byteArray.length : Int) limit).toNat))
                    = true := by
                rw [occursAt_drop, heq]
                exact hkocc
              have hlenk :
                  k - (byteArray.length - (min (byteArray.length : Int) limit).toNat) ≤
                    (byteArray.drop
                      (byteArray.length - (min (byteArray.length : Int) limit).toNat)).length := by
                rw [List.length_drop]
                omega
              have := hmax _ hlenk hocc'
              omega

/-- Closed instance of findFromEnd_correct at a concrete pattern, buffer
and limit. -/
theorem findFromEnd_correct_witness :
    (([3, 4] : List Nat) = [] →
      findFromEnd [1, 2] [3, 4] 10 = FIND_NOT_FOUND_RESULT) ∧
    (min (([3, 4] : List Nat).length : Int) 10 < (([1, 2] : List Nat).length : Int) →
      findFromEnd [1, 2] [3, 4] 10 = FIND_NOT_FOUND_RESULT) ∧
    (findFromEnd [1, 2] [3, 4] 10 = FIND_NOT_FOUND_RESULT ∨
      ∃ j : Nat,
        findFromEnd [1, 2] [3, 4] 10 = (j : Int) ∧
        ([3, 4] : List Nat).length - (min (([3, 4] : List Nat).length : Int) 10).toNat ≤ j ∧
        occursAt [3, 4] [1, 2] j = true ∧
        ∀ k : Nat,
          ([3, 4] : List Nat).length - (min (([3, 4] : List Nat).length : Int) 10).toNat ≤ k →
          occursAt [3, 4] [1, 2] k = true → k ≤ j) :=
  findFromEnd_correct [1, 2] [3, 4] 10 (by decide)

theorem createPaddedPassword32_eq (password : List Nat) :
    createPaddedPassword32 password = (password ++ PDFPasswordPadding).take 32 := by
  simp [createPaddedPassword32, List.take_append_eq_append_take]

theorem md5Rounds_take (md5 : List Nat → List Nat) (kb : Nat) :
    ∀ (n : Nat) (key : List Nat),
      (md5Rounds md5 kb key n).take kb = specKeyRounds md5 kb (key.take kb) n := by
  intro n
  induction n with
  | zero =>
    intro key
    rfl
  | succ n ih =>
    intro key
    simp only [md5Rounds, specKeyRounds]
    exact ih (md5 (key.take kb))

/-- C4: for revisions 2, 3 and 4 the derived file encryption key equals the
specification's algorithm: MD5 of {padded password, O, P as 4 little-endian
bytes, document id, 0xFFFFFFFF iff metadata encryption is disabled}, first
keyLengthBits/8 bytes, and for R at least 3 fifty re-hash rounds on the
current key bytes. -/
theorem createFileEncryptionKey_matches_spec (md5 : List Nat → List Nat)
    (h : StandardSecurityHandler) (password : List Nat)
    (hR : h.R = 2 ∨ h.R = 3 ∨ h.R = 4) (hkb : (h.keyLength / 8).toNat ≤ 16) :
    createFileEncryptionKey md5 h password =
      Except.ok (deriveFileKeySpec md5 h.O h.permissions h.ID h.encryptMetadata
        h.keyLength h.R password) := by
  simp only [createFileEncryptionKey, deriveFileKeySpec, if_pos hR]
  rw [if_neg (by omega : ¬ 16 < (h.keyLength / 8).toNat)]
  rw [createPaddedPassword32_eq]
  by_cases h3le : 3 ≤ h.R
  · simp only [if_pos h3le, md5Rounds_take]
  · simp only [if_neg h3le]

/-- Closed instance of C4 at revision 2, key length 40 bits, a stubbed
128-bit digest and the empty password. -/
theorem createFileEncryptionKey_matches_spec_witness :
    createFileEncryptionKey (fun _ => List.replicate 16 0)
        { V := 1, keyLength := 40, cryptFilters := [],
          filterStreams := defaultCryptFilter, filterStrings := defaultCryptFilter,
          filterEmbeddedFiles := defaultCryptFilter, R := 2, O := [], U := [],
          permissions := 0, OE := [], UE := [], Perms := [],
          encryptMetadata := true, ID := [] } [] =
      Except.ok (deriveFileKeySpec (fun _ => List.replicate 16 0) [] 0 [] true 40 2 []) :=
  createFileEncryptionKey_matches_spec (fun _ => List.replicate 16 0)
    { V := 1, keyLength := 40, cryptFilters := [],
      filterStreams := defaultCryptFilter, filterStrings := defaultCryptFilter,
      filterEmbeddedFiles := defaultCryptFilter, R := 2, O := [], U := [],
      permissions := 0, OE := [], UE := [], Perms := [],
      encryptMetadata := true, ID := [] } [] (Or.inl rfl) (by decide)

theorem uEncryptPasses_length (rc4 : List Nat → List Nat → List Nat)
    (hrc4 : ∀ k m, (rc4 k m).length = m.length) (fek : List Nat) :
    ∀ (count i : Nat) (eh : List Nat),
      (uEncryptPasses rc4 fek eh i count).length = eh.length := by
  intro count
  induction count with
  | zero =>
    intro i eh
    rfl
  | succ c ih =>
    intro i eh
    simp only [uEncryptPasses]
    rw [ih]
    exact hrc4 _ _

theorem eq_iff_take_of_drop_eq (a b : List Nat) (n : Nat)
    (hd : a.drop n = b.drop n) : a = b ↔ a.take n = b.take n := by
  constructor
  · intro h
    rw [h]
  · intro h
    calc a = a.take n ++ a.drop n := (List.take_append_drop n a).symm
    _ = b.take n ++ b.drop n := by rw [h, hd]
    _ = b := List.take_append_drop n b

/-- C5: for revisions 3 and 4 the computed U value is 32 bytes whose bytes
16..31 are copied from the stored U entry, so comparing all 32 bytes with
the stored U succeeds exactly when the first 16 bytes match. -/
theorem createEntryValueU_r234_trailing (md5 : List Nat → List Nat)
    (rc4 : List Nat → List Nat → List Nat)
    (h : StandardSecurityHandler) (fileEncryptionKey : List Nat)
    (hR : h.R = 3 ∨ h.R = 4) (hU : h.U.length = 32)
    (hmd5 : ∀ x, (md5 x).length = 16)
    (hrc4 : ∀ k m, (rc4 k m).length = m.length) :
    ∃ u, createEntryValueU_r234 md5 rc4 h fileEncryptionKey = Except.ok u ∧
      u.length = 32 ∧ u.drop 16 = h.U.drop 16 ∧
      (u = h.U ↔ u.take 16 = h.U.take 16) := by
  have hR2 : ¬ h.R = 2 := by
    rcases hR with h3 | h4 <;> omega
  simp only [createEntryValueU_r234, if_neg hR2, if_pos hR]
  have hlen :
      (uEncryptPasses rc4 fileEncryptionKey
        (rc4 fileEncryptionKey (md5 (PDFPasswordPadding ++ h.ID))) 1 19).length = 16 := by
    rw [uEncryptPasses_length rc4 hrc4, hrc4]
    exact hmd5 _
  refine ⟨_, rfl, ?_, ?_, ?_⟩
  · simp [hlen, hU]
  · rw [hlen]
    conv_lhs => rw [show (16 : Nat) = (uEncryptPasses rc4 fileEncryptionKey
      (rc4 fileEncryptionKey (md5 (PDFPasswordPadding ++ h.ID))) 1 19).length from hlen.symm]
    rw [List.drop_left, hlen]
  · apply eq_iff_take_of_drop_eq
    rw [hlen]
    conv_lhs => rw [show (16 : Nat) = (uEncryptPasses rc4 fileEncryptionKey
      (rc4 fileEncryptionKey (md5 (PDFPasswordPadding ++ h.ID))) 1 19).length from hlen.symm]
    rw [List.drop_left, hlen]

/-- Closed instance of C5 at revision 3 with stubbed digest and stream
cipher. -/
theorem createEntryValueU_r234_trailing_witness :
    ∃ u, createEntryValueU_r234 (fun _ => List.replicate 16 0) (fun _ m => m)
        { V := 2, keyLength := 40, cryptFilters := [],
          filterStreams := defaultCryptFilter, filterStrings := defaultCryptFilter,
          filterEmbeddedFiles := defaultCryptFilter, R := 3, O := [],
          U := List.replicate 32 7, permissions := 0, OE := [], UE := [], Perms := [],
          encryptMetadata := true, ID := [] } [] = Except.ok u ∧
      u.length = 32 ∧ u.drop 16 = (List.replicate 32 7).drop 16 ∧
      (u = List.replicate 32 7 ↔ u.take 16 = (List.replicate 32 7).take 16) :=
  createEntryValueU_r234_trailing (fun _ => List.replicate 16 0) (fun _ m => m)
    { V := 2, keyLength := 40, cryptFilters := [],
      filterStreams := defaultCryptFilter, filterStrings := defaultCryptFilter,
      filterEmbeddedFiles := defaultCryptFilter, R := 3, O := [],
      U := List.replicate 32 7, permissions := 0, OE := [], UE := [], Perms := [],
      encryptMetadata := true, ID := [] } [] (Or.inl rfl) (by decide)
    (fun _ => by simp) (fun _ _ => rfl)

theorem byteRemainder_mod3_fin : ∀ b : Fin 256, byteRemainder b.val % 3 = b.val % 3 := by
  decide

theorem fold_be_mod3 :
    ∀ (l : List Nat) (a1 a2 : Nat), a1 % 3 = a2 % 3 →
      (List.foldl (fun acc b => acc * 256 + b) a1 l) % 3 =
        (List.foldl (fun acc b => acc + b) a2 l) % 3 := by
  intro l
  induction l with
  | nil =>
    intro a1 a2 h
    exact h
  | cons b t ih =>
    intro a1 a2 h
    simp only [List.foldl]
    exact ih _ _ (by omega)

theorem fold_acc_mod3 :
    ∀ (l : List Nat), (∀ x ∈ l, x < 256) → ∀ a1 a2, a1 % 3 = a2 % 3 →
      (List.foldl (fun acc byte => acc + byteRemainder byte) a1 l) % 3 =
        (List.foldl (fun acc b => acc + b) a2 l) % 3 := by
  intro l
  induction l with
  | nil =>
    intro _ a1 a2 h
    exact h
  | cons b t ih =>
    intro hb a1 a2 h
    simp only [List.foldl]
    refine ih (fun x hx => hb x (List.mem_cons_of_mem _ hx)) _ _ ?_
    have hb256 : b < 256 := hb b (List.mem_cons_self _ _)
    have hmod := byteRemainder_mod3_fin ⟨b, hb256⟩
    simp only at hmod
    omega

/-- C7: the bitwise parity accumulation over the first 16 bytes of E
computes exactly the remainder modulo 3 of the unsigned 128-bit big-endian
integer formed by those bytes. -/
theorem remainderAccumulator_eq_mod3 (E : List Nat) (hlen : 16 ≤ E.length)
    (hbytes : ∀ b ∈ E, b < 256) :
    remainderAccumulator E = bigEndianNat (E.take 16) % 3 := by
  unfold remainderAccumulator bigEndianNat
  have h16 : ∀ x ∈ E.take 16, x < 256 := fun x hx => hbytes x (List.mem_of_mem_take hx)
  rw [fold_acc_mod3 _ h16 0 0 rfl, fold_be_mod3 _ 0 0 rfl]

/-- Closed instance of C7 on the 16 bytes 0..15. -/
theorem remainderAccumulator_eq_mod3_witness :
    remainderAccumulator (List.range 16) = bigEndianNat ((List.range 16).take 16) % 3 :=
  remainderAccumulator_eq_mod3 (List.range 16) (by decide)
    (fun b hb => by
      have := List.mem_range.mp hb
      omega)

theorem lastByte_lt :
    ∀ (E : List Nat), (∀ b ∈ E, b < 256) → lastByte E < 256 := by
  intro E
  induction E with
  | nil =>
    intro _
    simp [lastByte]
  | cons a t ih =>
    intro h
    cases t with
    | nil => simpa [lastByte] using h a (by simp)
    | cons b u =>
      simp only [lastByte]
      exact ih (fun x hx => h x (by simp [hx]))

theorem hashR6Loop_terminates (sha256 sha384 sha512 : List Nat → List Nat)
    (aes : List Nat → List Nat → List Nat → List Nat)
    (haes : ∀ k iv m, ∀ b ∈ aes k iv m, b < 256)
    (password userKey : List Nat) :
    ∀ (fuel round : Nat) (K E : List Nat),
      (∀ b ∈ E, b < 256) → 287 ≤ fuel + round → round ≤ 287 →
      ∃ n Kfinal,
        hashR6Loop sha256 sha384 sha512 aes password userKey fuel round K E =
          some (n, Kfinal) ∧ n ≤ 287 := by
  intro fuel
  induction fuel with
  | zero =>
    intro round K E hE hfr hr
    have hround : round = 287 := by omega
    subst hround
    have hlast : lastByte E < 256 := lastByte_lt E hE
    have hcond : ¬ (287 < 64 ∨ 287 < lastByte E + 32) := by omega
    refine ⟨287, K, ?_, Nat.le_refl _⟩
    simp only [hashR6Loop]
    rw [if_neg hcond]
  | succ f ih =>
    intro round K E hE hfr hr
    by_cases hcond : round < 64 ∨ round < lastByte E + 32
    · have hlast : lastByte E < 256 := lastByte_lt E hE
      have hround : round < 287 := by omega
      simp only [hashR6Loop]
      rw [if_pos hcond]
      exact ih (round + 1) _ _ (fun b hb => haes _ _ _ b hb) (by omega) (by omega)
    · refine ⟨round, K, ?_, by omega⟩
      simp only [hashR6Loop]
      rw [if_neg hcond]

/-- C8: the revision-6 hash terminates for every input, password and
owner-context flag: the round loop reaches its stop condition within 287
rounds whenever the block cipher produces byte values, and the result is
exactly the first 32 bytes of the final digest K. -/
theorem createHash_r6_terminates (sha256 sha384 sha512 : List Nat → List Nat)
    (aes : List Nat → List Nat → List Nat → List Nat)
    (haes : ∀ k iv m, ∀ b ∈ aes k iv m, b < 256)
    (mU input inputPassword : List Nat) (useUserKey : Bool) :
    ∃ n Kfinal,
      hashR6Loop sha256 sha384 sha512 aes inputPassword (if useUserKey then mU else []) 287 0
        (sha256 input) [] = some (n, Kfinal) ∧ n ≤ 287 ∧
      createHash_r6 sha256 sha384 sha512 aes mU input inputPassword useUserKey =
        some (Kfinal.take 32) := by
  obtain ⟨n, Kf, heq, hle⟩ :=
    hashR6Loop_terminates sha256 sha384 sha512 aes haes inputPassword
      (if useUserKey then mU else []) 287 0 (sha256 input) [] (by simp) (by omega) (by omega)
  exact ⟨n, Kf, heq, hle, by simp [createHash_r6, heq]⟩

/-- Closed instance of C8 with stubbed digests and a stubbed byte-valued
block cipher. -/
theorem createHash_r6_terminates_witness :
    ∃ n Kfinal,
      hashR6Loop (fun _ => List.replicate 32 0) (fun _ => List.replicate 48 0)
          (fun _ => List.replicate 64 0) (fun _ _ m => List.replicate m.length 0)
          [] (if true then List.replicate 48 0 else []) 287 0
          ((fun (_ : List Nat) => List.replicate 32 0) ([] : List Nat)) [] =
        some (n, Kfinal) ∧ n ≤ 287 ∧
      createHash_r6 (fun _ => List.replicate 32 0) (fun _ => List.replicate 48 0)
          (fun _ => List.replicate 64 0) (fun _ _ m => List.replicate m.length 0)
          (List.replicate 48 0) [] [] true = some (Kfinal.take 32) :=
  createHash_r6_terminates (fun _ => List.replicate 32 0) (fun _ => List.replicate 48 0)
    (fun _ => List.replicate 64 0) (fun _ _ m => List.replicate m.length 0)
    (fun k iv m b hb => by
      rw [List.eq_of_mem_replicate hb]
      omega)
    (List.replicate 48 0) [] [] true

theorem resolveFilter_ok (m : List (String × CryptFilter)) (n : String) (f : CryptFilter)
    (h : resolveFilter m n = Except.ok f) : mapFind m n = some f := by
  unfold resolveFilter at h
  split at h
  · simp_all
  · simp_all

theorem resolveFiltersStage_EFF (dictionary : List (String × PDFObject))
    (base cf : List (String × CryptFilter)) (fs fstr fe : CryptFilter)
    (hok : resolveFiltersStage dictionary base = Except.ok (cf, fs, fstr, fe)) :
    (dictHasKey dictionary "EFF" = false → fe = fs) ∧
    (dictHasKey dictionary "EFF" = true →
      ∃ n, getNameEntry dictionary "EFF" true none = Except.ok n ∧
        mapFind cf n = some fe) := by
  unfold resolveFiltersStage at hok
  split at hok
  · simp at hok
  next cryptFilters hcf =>
    split at hok
    · simp at hok
    next stmfName hstmf =>
      split at hok
      · simp at hok
      next filterStreams hfs =>
        split at hok
        · simp at hok
        next strfName hstrf =>
          split at hok
          · simp at hok
          next filterStrings hfstr =>
            by_cases heff : dictHasKey dictionary "EFF"
            · rw [if_pos heff] at hok
              split at hok
              · simp at hok
              next effName heffName =>
                split at hok
                · simp at hok
                next filterEmbeddedFiles hfe =>
                  simp only [Except.ok.injEq, Prod.mk.injEq] at hok
                  obtain ⟨rfl, rfl, rfl, rfl⟩ := hok
                  refine ⟨fun hfalse => ?_, fun _ => ⟨effName, heffName, resolveFilter_ok _ _ _ hfe⟩⟩
                  rw [heff] at hfalse
                  exact absurd hfalse (by simp)
            · rw [if_neg heff] at hok
              simp only [Except.ok.injEq, Prod.mk.injEq] at hok
              obtain ⟨rfl, rfl, rfl, rfl⟩ := hok
              refine ⟨fun _ => rfl, fun htrue => ?_⟩
              exact absurd htrue (by simpa using heff)

/-- C9: when a Standard handler is built with V = 4 or V = 5, an absent EFF
entry makes the embedded-file crypt filter equal the resolved stream
filter, and a present EFF entry makes it the named crypt-filter table's
resolution of the EFF name. -/
theorem createSecurityHandler_EFF (d : List (String × PDFObject)) (id : List Nat)
    (h : StandardSecurityHandler)
    (hok : createSecurityHandler (PDFObject.dictionary d) id =
      Except.ok (SecurityHandler.standard h))
    (hV : h.V = 4 ∨ h.V = 5) :
    (dictHasKey d "EFF" = false → h.filterEmbeddedFiles = h.filterStreams) ∧
    (dictHasKey d "EFF" = true →
      ∃ n, getNameEntry d "EFF" true none = Except.ok n ∧
        mapFind h.cryptFilters n = some h.filterEmbeddedFiles) := by
  simp only [createSecurityHandler] at hok
  split at hok
  · simp at hok
  next filterName hfn =>
    split at hok
    · simp at hok
    · split at hok
      · simp at hok
      next V hVdef =>
        split at hok
        · simp at hok
        · split at hok
          · simp at hok
          next keyLength hkl =>
            split at hok
            · simp at hok
            next cf fs fstr fe hFilters =>
              split at hok
              · simp at hok
              next R hRdef =>
                split at hok
                · simp at hok
                · split at hok
                  · simp at hok
                  next O hO =>
                    split at hok
                    · simp at hok
                    next U hU =>
                      split at hok
                      · simp at hok
                      next P hP =>
                        split at hok
                        · simp at hok
                        next OE UE PermsV hR6 =>
                          simp only [Except.ok.injEq, SecurityHandler.standard.injEq] at hok
                          subst hok
                          have hV45 : V = 4 ∨ V = 5 := by simpa using hV
                          rw [if_pos hV45] at hFilters
                          obtain ⟨hA, hB⟩ :=
                            resolveFiltersStage_EFF d identityBaseFilters cf fs fstr fe hFilters
                          exact ⟨hA, hB⟩

theorem authenticateStep_finished_result (md5 : List Nat → List Nat)
    (rc4 : List Nat → List Nat → List Nat)
    (sha256 sha384 sha512 : List Nat → List Nat)
    (aesEnc aesDec : List Nat → List Nat → List Nat → List Nat)
    (h : StandardSecurityHandler) (p : List Nat) (r : AuthorizationResult)
    (data : AuthorizationData)
    (hr : authenticateStep md5 rc4 sha256 sha384 sha512 aesEnc aesDec h p =
      Except.ok (StepOutcome.finished r data)) :
    r = AuthorizationResult.ownerAuthorized ∨ r = AuthorizationResult.userAuthorized ∨
      r = AuthorizationResult.failed := by
  unfold authenticateStep at hr
  dsimp only at hr
  repeat' split at hr
  all_goals simp_all

theorem candFrom_shift (provider : Nat → List Nat × Bool) (p : List Nat) (c : Nat) :
    ∀ j, candFrom provider (provider c).1 (c + 1) j = candFrom provider p c (j + 1) := by
  intro j
  cases j with
  | zero => simp [candFrom]
  | succ k =>
    show (provider (c + 1 + k)).1 = (provider (c + (k + 1))).1
    rw [show c + 1 + k = c + (k + 1) from by omega]

theorem candFrom_zero (provider : Nat → List Nat × Bool) :
    ∀ j, candFrom provider [] 0 j = candidatePassword provider j := by
  intro j
  cases j with
  | zero => rfl
  | succ k => simp [candFrom, candidatePassword]

theorem authenticateLoop_cancelled_iff (md5 : List Nat → List Nat)
    (rc4 : List Nat → List Nat → List Nat)
    (sha256 sha384 sha512 : List Nat → List Nat)
    (aesEnc aesDec : List Nat → List Nat → List Nat → List Nat)
    (h : StandardSecurityHandler) (provider : Nat → List Nat × Bool) :
    ∀ (fuel : Nat) (p : List Nat) (c : Nat),
      (∃ n, authenticateLoop md5 rc4 sha256 sha384 sha512 aesEnc aesDec h provider fuel p c =
          some (Except.ok (AuthorizationResult.cancelled, defaultAuthorizationData, n))) ↔
      (∃ k, k < fuel ∧ (provider (c + k)).2 = false ∧
        (∀ j, j < k → (provider (c + j)).2 = true) ∧
        (∀ j, j ≤ k → authenticateStep md5 rc4 sha256 sha384 sha512 aesEnc aesDec h
          (candFrom provider p c j) = Except.ok StepOutcome.next)) := by
  intro fuel
  induction fuel with
  | zero =>
    intro p c
    constructor
    · rintro ⟨n, hn⟩
      simp [authenticateLoop] at hn
    · rintro ⟨k, hk, _⟩
      omega
  | succ f ih =>
    intro p c
    constructor
    · rintro ⟨n, hn⟩
      simp only [authenticateLoop] at hn
      rcases hstep : authenticateStep md5 rc4 sha256 sha384 sha512 aesEnc aesDec h p
        with e | out
      · rw [hstep] at hn
        simp at hn
      · rw [hstep] at hn
        cases out with
        | finished r rdata =>
          simp only [Option.some.injEq, Except.ok.injEq, Prod.mk.injEq] at hn
          obtain ⟨hr, _, _⟩ := hn
          subst hr
          rcases authenticateStep_finished_result md5 rc4 sha256 sha384 sha512 aesEnc aesDec
            h p _ rdata hstep with hbad | hbad | hbad <;> exact absurd hbad (by simp)
        | next =>
          by_cases hflag : (provider c).2
          · rw [if_pos hflag] at hn
            obtain ⟨k, hk, hfalse, htrue, hsteps⟩ :=
              (ih (provider c).1 (c + 1)).mp ⟨n, hn⟩
            refine ⟨k + 1, by omega, ?_, ?_, ?_⟩
            · rw [show c + (k + 1) = c + 1 + k from by omega]
              exact hfalse
            · intro j hj
              cases j with
              | zero => simpa using hflag
              | succ j1 =>
                rw [show c + (j1 + 1) = c + 1 + j1 from by omega]
                exact htrue j1 (by omega)
            · intro j hj
              cases j with
              | zero => exact hstep
              | succ j1 =>
                rw [← candFrom_shift provider p c j1]
                exact hsteps j1 (by omega)
          · rw [if_neg hflag] at hn
            refine ⟨0, by omega, by simpa using hflag, by omega, ?_⟩
            intro j hj
            have hj0 : j = 0 := by omega
            subst hj0
            exact hstep
    · rintro ⟨k, hk, hfalse, htrue, hsteps⟩
      have hstep0 : authenticateStep md5 rc4 sha256 sha384 sha512 aesEnc aesDec h p =
          Except.ok StepOutcome.next := by
        simpa [candFrom] using hsteps 0 (by omega)
      simp only [authenticateLoop, hstep0]
      cases k with
      | zero =>
        have hflag : (provider c).2 = false := by simpa using hfalse
        rw [if_neg (by simp [hflag])]
        exact ⟨c + 1, rfl⟩
      | succ k1 =>
        have hflag : (provider c).2 = true := by simpa using htrue 0 (by omega)
        rw [if_pos (by simp [hflag])]
        refine (ih (provider c).1 (c + 1)).mpr ⟨k1, by omega, ?_, ?_, ?_⟩
        · rw [show c + 1 + k1 = c + (k1 + 1) from by omega]
          exact hfalse
        · intro j hj
          rw [show c + 1 + j = c + (j + 1) from by omega]
          exact htrue (j + 1) (by omega)
        · intro j hj
          rw [candFrom_shift provider p c j]
          exact hsteps (j + 1) (by omega)

/-- C6: authenticate returns Cancelled exactly when the provider sets its
continuation flag to false before any candidate password authorizes, and
an unsupported revision returns Failed immediately with zero provider
invocations. -/
theorem authenticate_control (md5 : List Nat → List Nat)
    (rc4 : List Nat → List Nat → List Nat)
    (sha256 sha384 sha512 : List Nat → List Nat)
    (aesEnc aesDec : List Nat → List Nat → List Nat → List Nat)
    (h : StandardSecurityHandler) (provider : Nat → List Nat × Bool) :
    (¬(h.R = 2 ∨ h.R = 3 ∨ h.R = 4 ∨ h.R = 6) →
      ∀ fuel : Nat,
        authenticate md5 rc4 sha256 sha384 sha512 aesEnc aesDec h provider (fuel + 1) =
          some (Except.ok (AuthorizationResult.failed, defaultAuthorizationData, 0))) ∧
    (∀ fuel : Nat,
      (∃ n, authenticate md5 rc4 sha256 sha384 sha512 aesEnc aesDec h provider fuel =
          some (Except.ok (AuthorizationResult.cancelled, defaultAuthorizationData, n))) ↔
      (∃ k, k < fuel ∧ (provider k).2 = false ∧
        (∀ j, j < k → (provider j).2 = true) ∧
        (∀ j, j ≤ k → authenticateStep md5 rc4 sha256 sha384 sha512 aesEnc aesDec h
          (candidatePassword provider j) = Except.ok StepOutcome.next))) := by
  constructor
  · intro hR fuel
    have hstep : authenticateStep md5 rc4 sha256 sha384 sha512 aesEnc aesDec h [] =
        Except.ok (StepOutcome.finished AuthorizationResult.failed defaultAuthorizationData) := by
      unfold authenticateStep
      rw [if_neg (by tauto), if_neg (by tauto)]
    simp [authenticate, authenticateLoop, hstep]
  · intro fuel
    have hmain := authenticateLoop_cancelled_iff md5 rc4 sha256 sha384 sha512 aesEnc aesDec
      h provider fuel [] 0
    simpa [authenticate, candFrom_zero, Nat.zero_add] using hmain

/-- Closed instance of C6: revision 7 yields Failed with zero provider
invocations. -/
theorem authenticate_control_witness :
    authenticate (fun _ => []) (fun _ _ => []) (fun _ => []) (fun _ => []) (fun _ => [])
        (fun _ _ _ => []) (fun _ _ _ => [])
        { V := 1, keyLength := 40, cryptFilters := [],
          filterStreams := defaultCryptFilter, filterStrings := defaultCryptFilter,
          filterEmbeddedFiles := defaultCryptFilter, R := 7, O := [], U := [],
          permissions := 0, OE := [], UE := [], Perms := [],
          encryptMetadata := true, ID := [] } (fun _ => ([], false)) (0 + 1) =
      some (Except.ok (AuthorizationResult.failed, defaultAuthorizationData, 0)) :=
  (authenticate_control (fun _ => []) (fun _ _ => []) (fun _ => []) (fun _ => []) (fun _ => [])
    (fun _ _ _ => []) (fun _ _ _ => [])
    { V := 1, keyLength := 40, cryptFilters := [],
      filterStreams := defaultCryptFilter, filterStrings := defaultCryptFilter,
      filterEmbeddedFiles := defaultCryptFilter, R := 7, O := [], U := [],
      permissions := 0, OE := [], UE := [], Perms := [],
      encryptMetadata := true, ID := [] } (fun _ => ([], false))).1 (by decide) 0

/-- C2 is refuted by the code: on this concrete revision-6 instance the
user hash check succeeds and authenticate returns UserAuthorized, but the
file encryption key is the CBC decryption (zero initialization vector) of
the OE entry, not of the UE entry — pdfsecurityhandler.cpp lines 372-373
read m_OE in the user branch, and m_UE is never used. -/
theorem c2_user_branch_decrypts_OE :
    authenticate stubMd5 stubRc4 stubSha256 stubSha384 stubSha512 stubAesEnc stubAesDec
        c2Handler (fun _ => ([], false)) 1 =
      some (Except.ok (AuthorizationResult.userAuthorized,
        { authorizationResult := AuthorizationResult.userAuthorized,
          fileEncryptionKey := stubAesDec (List.replicate 32 0) (List.replicate 16 0)
            c2Handler.OE }, 0)) ∧
    stubAesDec (List.replicate 32 0) (List.replicate 16 0) c2Handler.OE ≠
      stubAesDec (List.replicate 32 0) (List.replicate 16 0) c2Handler.UE := by
  constructor
  · rfl
  · decide

/-- C3 as stated is false on the code: the find_if predicate
(pdfdocumentreader.cpp line 411) checks only the object number and the
container, never the index. Here the pair sits at loop index 0 while the
table declares index 5, yet the object is written into slot 3 and the
task succeeds instead of failing. -/
theorem c3_index_not_checked :
    (processObjectStreamPairs (fun _ => PDFObject.integer 42) c3Entries c3Ref
        (List.replicate 4 defaultStorageEntry) [(3, 0)]).2 = none ∧
    ((processObjectStreamPairs (fun _ => PDFObject.integer 42) c3Entries c3Ref
        (List.replicate 4 defaultStorageEntry) [(3, 0)]).1.getD 3 defaultStorageEntry).object
      = PDFObject.integer 42 ∧
    (∀ entry ∈ c3Entries, ¬(entry.reference.objectNumber = 3 ∧
      entry.objectStream = c3Ref ∧ entry.indexInObjectStream = 0)) := by
  refine ⟨rfl, rfl, ?_⟩
  intro entry he
  simp only [c3Entries, List.mem_singleton] at he
  subst he
  simp [c3Ref]

/-- C3 amended: during object-stream materialization a parsed object is
written into its table slot exactly when the cross-reference table
declares that object number for that exact container — the index within
the container is not checked — and the task fails with an object-stream
error as soon as a pair is not so declared. -/
theorem processObjectStreamPairs_declares (parseObjectAt : Int → PDFObject)
    (entries : List XRefObjectStreamEntry) (ref : PDFObjectReference) :
    ∀ (pairs : List (Int × Int)) (objects : List StorageEntry),
      (processObjectStreamPairs parseObjectAt entries ref objects pairs).2 = none ↔
        ∀ p ∈ pairs, declaresPair entries p.1 ref = true := by
  intro pairs
  induction pairs with
  | nil =>
    intro objects
    simp [processObjectStreamPairs]
  | cons pr rest ih =>
    intro objects
    obtain ⟨objectNumber, offset⟩ := pr
    by_cases hd : declaresPair entries objectNumber ref
    · simp only [processObjectStreamPairs]
      rw [if_pos hd]
      constructor
      · intro hnone p hp
        rcases List.mem_cons.mp hp with rfl | hmem
        · exact hd
        · exact ((ih _).mp hnone) p hmem
      · intro hall
        exact (ih _).mpr (fun p hp => hall p (List.mem_cons_of_mem _ hp))
    · simp only [processObjectStreamPairs]
      rw [if_neg hd]
      constructor
      · intro hnone
        simp at hnone
      · intro hall
        exact absurd (hall (objectNumber, offset) (by simp)) hd

/-- Closed instance of C9 on a concrete V = 4 dictionary without an EFF
entry. -/
theorem createSecurityHandler_EFF_witness :
    (dictHasKey c9Dict "EFF" = false →
      c9Handler.filterEmbeddedFiles = c9Handler.filterStreams) ∧
    (dictHasKey c9Dict "EFF" = true →
      ∃ n, getNameEntry c9Dict "EFF" true none = Except.ok n ∧
        mapFind c9Handler.cryptFilters n = some c9Handler.filterEmbeddedFiles) :=
  createSecurityHandler_EFF c9Dict [] c9Handler (by rfl) (Or.inl rfl)

/-- C1 is refuted by the code: the second phase-5 task records its failure
(the flag is false, the message is captured), yet readFromBuffer still
returns a non-empty document whose table holds object 1 but not the
declared object 2 — partially populated — because no check of the shared
success flag happens between the parallel phases and the return at
pdfdocumentreader.cpp line 434. -/
theorem c1_failure_returns_partial_document :
    (readFromBuffer c1Env c1Buffer).1.successfull = false ∧
    (readFromBuffer c1Env c1Buffer).1.errorMessage = "Can not read object at position 20." ∧
    isEmptyDocument (readFromBuffer c1Env c1Buffer).2 = false ∧
    (readFromBuffer c1Env c1Buffer).2 =
      PDFDocument.document
        [defaultStorageEntry,
         { generation := 0, object := PDFObject.integer 42 },
         defaultStorageEntry]
        (PDFObject.dictionary []) SecurityHandler.noneHandler :=
  ⟨rfl, rfl, rfl, rfl⟩
